import Mathlib

/-!
Verification of the DBackup backup core (`src/server/backup/`):
the strategy factory (`factory.py`), the shared strategy helpers
(`base.py`) and the MySQL strategy (`mysql.py`), shallowly embedded.

Dynamically typed Python attribute values are embedded as `PyVal`
(string, int, or list of strings); Python exceptions become the
`Except PyErr` monad; the ambient OS state (filesystem, environment,
clock, subprocess behaviour) is threaded explicitly through a `World`
record, and each `subprocess.run` call is logged as a `SpawnEvent`.
-/

/-- A runtime value of a dynamically typed `db_config` attribute:
a Python `str`, `int`, or list of strings. -/
inductive PyVal where
  | str (s : String)
  | int (n : Int)
  | listS (xs : List String)
deriving DecidableEq

/-- Python exceptions relevant to the embedded code. -/
inductive PyErr where
  | attributeError (msg : String)
  | typeError (msg : String)
  | oSError (msg : String)
  | calledProcessError (code : Int) (stderr : String)
deriving DecidableEq

/-- `v.isStr` holds when the value is a Python string. -/
def PyVal.isStr : PyVal → Bool
  | .str _ => true
  | _ => false

/-- Python `str(v)` as used by f-string interpolation. -/
def pyToStr : PyVal → String
  | .str s => s
  | .int n => toString n
  | .listS xs => "[" ++ String.intercalate ", " (xs.map fun s => "'" ++ s ++ "'") ++ "]"

/-- Python `str(e)` for a caught exception. -/
def pyErrStr : PyErr → String
  | .attributeError m => m
  | .typeError m => m
  | .oSError m => m
  | .calledProcessError code _ =>
      "Command returned non-zero exit status " ++ toString code ++ "."

/-- Python `',' in v` (membership test; raises `TypeError` on an `int`). -/
def pyInComma : PyVal → Except PyErr Bool
  | .str s => .ok (decide (',' ∈ s.data))
  | .listS xs => .ok (decide ("," ∈ xs))
  | .int _ => .error (.typeError "argument of type 'int' is not iterable")

/-- Python `str.split(',')` on a character list: fields between commas,
empty fields preserved. -/
def splitCommaList : List Char → List (List Char)
  | [] => [[]]
  | c :: rest =>
    if c = ',' then [] :: splitCommaList rest
    else
      match splitCommaList rest with
      | [] => [[c]]
      | h :: t => (c :: h) :: t

/-- Python `v.split(',')`; raises `AttributeError` when `v` is not a string. -/
def pySplitComma : PyVal → Except PyErr (List String)
  | .str s => .ok ((splitCommaList s.data).map fun cs => ⟨cs⟩)
  | .listS _ => .error (.attributeError "'list' object has no attribute 'split'")
  | .int _ => .error (.attributeError "'int' object has no attribute 'split'")

/-- The ASCII whitespace characters stripped by Python `str.strip()`. -/
def pyIsSpace (c : Char) : Bool :=
  c = ' ' || c = '\t' || c = '\n' || c = '\r' || c = '\x0b' || c = '\x0c'

/-- Python `str.strip()`: drop whitespace from both ends. -/
def pyStrip (s : String) : String :=
  ⟨((s.data.dropWhile pyIsSpace).reverse.dropWhile pyIsSpace).reverse⟩

/-- `mysql.py` line 17: the target-database extraction
`db_name.split(',')[0].strip() if ',' in db_name else db_name`,
on a dynamically typed `db_name`. -/
def extract_target (db_name : PyVal) : Except PyErr PyVal := do
  let hasComma ← pyInComma db_name
  if hasComma then
    let fields ← pySplitComma db_name
    pure (PyVal.str (pyStrip (fields.headD "")))
  else
    pure db_name

/-- A local-time clock reading, the result of `datetime.datetime.now()`. -/
structure DateTime where
  year : Nat
  month : Nat
  day : Nat
  hour : Nat
  minute : Nat
  second : Nat
deriving DecidableEq

/-- Field ranges of a real `datetime.datetime` value. -/
def DateTime.valid (dt : DateTime) : Prop :=
  1 ≤ dt.year ∧ dt.year ≤ 9999 ∧ 1 ≤ dt.month ∧ dt.month ≤ 12 ∧
  1 ≤ dt.day ∧ dt.day ≤ 31 ∧ dt.hour ≤ 23 ∧ dt.minute ≤ 59 ∧ dt.second ≤ 59

/-- Two-digit zero-padded decimal rendering (strftime `%m`, `%d`, `%H`,
`%M`, `%S` on in-range fields). -/
def pad2L (n : Nat) : List Char :=
  [Nat.digitChar (n / 10 % 10), Nat.digitChar (n % 10)]

/-- Four-digit zero-padded decimal rendering (strftime `%Y` on an
in-range year). -/
def pad4L (n : Nat) : List Char :=
  [Nat.digitChar (n / 1000 % 10), Nat.digitChar (n / 100 % 10),
   Nat.digitChar (n / 10 % 10), Nat.digitChar (n % 10)]

/-- `base.py` lines 29-30: `get_timestamp`, i.e.
`datetime.datetime.now().strftime("%Y%m%d_%H%M%S")` applied to a given
clock reading. -/
def get_timestamp (dt : DateTime) : String :=
  ⟨pad4L dt.year ++ pad2L dt.month ++ pad2L dt.day ++ ['_'] ++
   pad2L dt.hour ++ pad2L dt.minute ++ pad2L dt.second⟩

/-- Python `os.path.join(d, f)` for a single join: an absolute `f` wins;
a trailing separator on `d` (or empty `d`) concatenates directly;
otherwise a `/` is inserted. -/
def os_path_join (d f : String) : String :=
  if f.data.headD ' ' = '/' then f
  else if d.data.getLastD '/' = '/' then d ++ f
  else d ++ "/" ++ f

/-- A Python dict with string keys, insertion-ordered (`os.environ.copy()`
and the `env` dict built from it). -/
abbrev Env := List (String × PyVal)

/-- Python `d[k] = v` on a dict without duplicate keys. -/
def dictSet : Env → String → PyVal → Env
  | [], k, v => [(k, v)]
  | (k', v') :: rest, k, v =>
    if k' = k then (k, v) :: rest else (k', v') :: dictSet rest k v

/-- Python `d.get(k)`. -/
def dictGet : Env → String → Option PyVal
  | [], _ => none
  | (k', v') :: rest, k => if k' = k then some v' else dictGet rest k

/-- One `subprocess.run` call as issued: argument list and environment. -/
structure SpawnEvent where
  cmd : List PyVal
  env : Env
deriving DecidableEq

/-- Behaviour of the external dump process in this run: it exits with a
code and captured stderr, or it cannot be launched at all. -/
inductive SpawnOutcome where
  | exit (code : Int) (stderr : String)
  | launchFailure (msg : String)
deriving DecidableEq

/-- The result object of a completed `subprocess.run`. -/
structure CompletedProcess where
  returncode : Int
  stdout : String
  stderr : String
deriving DecidableEq

/-- The ambient OS state threaded through a run: the install root (from
which `BACKUP_DIR` is derived in `base.py` line 11), the set of existing
directories, whether `os.makedirs` is permitted, the parent process
environment `os.environ`, the clock, the dump process behaviour, and the
log of subprocess calls issued so far. -/
structure World where
  installRoot : String
  dirs : List String
  mkdirOk : Bool
  environ : Env
  now : DateTime
  spawn : SpawnOutcome
  trace : List SpawnEvent
deriving DecidableEq

/-- `base.py` line 11: the class constant
`BACKUP_DIR = os.path.abspath(os.path.join(os.path.dirname(__file__),
'..', '..', '..', 'backups'))`, i.e. `<installRoot>/backups`. -/
def World.backupDir (w : World) : String :=
  w.installRoot ++ "/backups"

/-- `base.py` lines 13-17: `ensure_backup_dir` — create `BACKUP_DIR` if it
does not exist (raising `OSError` when `os.makedirs` is denied), then
return it. -/
def ensure_backup_dir (w : World) : Except PyErr (World × String) :=
  if w.dirs.contains w.backupDir then .ok (w, w.backupDir)
  else if w.mkdirOk then
    .ok ({ w with dirs := w.backupDir :: w.dirs }, w.backupDir)
  else .error (.oSError "[Errno 13] Permission denied")

/-- The caller-supplied `db_config` object; a `none` field models a
missing attribute (access raises `AttributeError`). -/
structure DBConfig where
  db_host : Option PyVal
  db_port : Option PyVal
  db_user : Option PyVal
  db_password : Option PyVal
  db_name : Option PyVal
deriving DecidableEq

/-- Python attribute access `db_config.name`. -/
def pyGetAttr (v : Option PyVal) (name : String) : Except PyErr PyVal :=
  match v with
  | some x => .ok x
  | none => .error (.attributeError ("object has no attribute '" ++ name ++ "'"))

/-- `subprocess.run(cmd, env=env, capture_output=True, text=True,
check=True)`: raises `TypeError` if any argument or environment value is
not a string, raises `CalledProcessError` on a non-zero exit
(`check=True`), raises an `OSError` when the binary cannot be launched,
and returns the completed process on exit code 0. -/
def subprocess_run (beh : SpawnOutcome) (cmd : List PyVal) (env : Env) :
    Except PyErr CompletedProcess :=
  if (cmd.all PyVal.isStr && env.all fun q => q.2.isStr) = true then
    match beh with
    | .exit code err =>
        if code = 0 then .ok ⟨0, "", err⟩
        else .error (.calledProcessError code err)
    | .launchFailure m => .error (.oSError m)
  else .error (.typeError "expected str, bytes or os.PathLike object, not list")

/-- The result tuple `(success, filepath, message)` returned by `backup`. -/
abbrev BackupResult := Bool × Option String × String

/-- `mysql.py` lines 6-52: `MySQLBackup.backup(db_config)`. Errors of the
`Except` monad are exceptions propagating out of the Python method; the
`try` block covers only the `subprocess.run` call. -/
def MySQLBackup.backup (w : World) (cfg : DBConfig) :
    Except PyErr (World × BackupResult) := do
  let (w1, _) ← ensure_backup_dir w
  let host ← pyGetAttr cfg.db_host "db_host"
  let port ← pyGetAttr cfg.db_port "db_port"
  let user ← pyGetAttr cfg.db_user "db_user"
  let password ← pyGetAttr cfg.db_password "db_password"
  let db_name ← pyGetAttr cfg.db_name "db_name"
  let target_db ← extract_target db_name
  let timestamp := get_timestamp w1.now
  let filename := "backup_mysql_" ++ pyToStr target_db ++ "_" ++ timestamp ++ ".sql"
  let filepath := os_path_join w1.backupDir filename
  let cmd : List PyVal :=
    [PyVal.str "mariadb-dump",
     PyVal.str ("-h" ++ pyToStr host),
     PyVal.str ("-P" ++ pyToStr port),
     PyVal.str ("-u" ++ pyToStr user),
     PyVal.str ("--result-file=" ++ filepath),
     PyVal.str "--single-transaction",
     target_db]
  let env := dictSet w1.environ "MYSQL_PWD" password
  let w2 := { w1 with trace := w1.trace ++ [⟨cmd, env⟩] }
  match subprocess_run w2.spawn cmd env with
  | .ok _ => pure (w2, (true, some filepath, "Backup erfolgreich erstellt."))
  | .error (.calledProcessError _ stderr) =>
      pure (w2, (false, none, "Fehler beim Erstellen des Backups: " ++ stderr))
  | .error e => pure (w2, (false, none, pyErrStr e))

/-- A strategy instance produced by the factory (`MySQLBackup()` is the
only constructible one). -/
inductive Strategy where
  | mysql
deriving DecidableEq

/-- The exceptions raised by the factory: `NotImplementedError` for
recognized-but-unsupported engines, `ValueError` for unknown ones. -/
inductive FactoryError where
  | notImplemented (msg : String)
  | valueError (msg : String)
deriving DecidableEq

/-- `factory.py` lines 7-15: `BackupFactory.get_backup_strategy`. -/
def get_backup_strategy (db_type : String) : Except FactoryError Strategy :=
  if db_type = "mysql" then .ok .mysql
  else if db_type = "postgresql" then
    .error (.notImplemented "PostgreSQL Backup noch nicht implementiert.")
  else if db_type = "mongodb" then
    .error (.notImplemented "MongoDB Backup noch nicht implementiert.")
  else .error (.valueError ("Unbekannter Datenbank-Typ: " ++ db_type))

/-- The result tuple of a `backup` call that returned normally, `none`
when the call raised. -/
def backupOutcome (w : World) (cfg : DBConfig) : Option BackupResult :=
  match MySQLBackup.backup w cfg with
  | .ok (_, r) => some r
  | .error _ => none

/-- The first subprocess call logged by a `backup` call that returned
normally and started from an empty trace. -/
def firstSpawn (w : World) (cfg : DBConfig) : Option SpawnEvent :=
  match MySQLBackup.backup w cfg with
  | .ok (w', _) => w'.trace.head?
  | .error _ => none

/-- The constructed output file path of a run with target database `tgt`
started at world `w`. -/
def outPath (w : World) (tgt : String) : String :=
  w.backupDir ++ "/" ++ ("backup_mysql_" ++ tgt ++ "_" ++ get_timestamp w.now ++ ".sql")

/-- The constructed dump command of a run with target database `tgt`
started at world `w` with config fields `h`, `p`, `u`. -/
def dumpCmd (w : World) (h p u tgt : String) : List PyVal :=
  [PyVal.str "mariadb-dump", PyVal.str ("-h" ++ h), PyVal.str ("-P" ++ p),
   PyVal.str ("-u" ++ u), PyVal.str ("--result-file=" ++ outPath w tgt),
   PyVal.str "--single-transaction", PyVal.str tgt]

/-- A sample OS world for the concrete runs below: the backup directory
already exists and the dump tool exits 0. -/
def sampleWorld : World :=
  { installRoot := "/app", dirs := ["/app/backups"], mkdirOk := true,
    environ := [("PATH", PyVal.str "/usr/bin")],
    now := ⟨2026, 10, 12, 3, 4, 5⟩, spawn := .exit 0 "", trace := [] }

/-- A sample well-typed configuration with a comma-separated name. -/
def sampleConfig : DBConfig :=
  { db_host := some (.str "localhost"), db_port := some (.str "3306"),
    db_user := some (.str "root"), db_password := some (.str "s3cret"),
    db_name := some (.str "appdb,logsdb") }

/-- The sample world with a dump process failing with exit code 1. -/
def deniedWorld : World :=
  { sampleWorld with spawn := .exit 1 "Access denied" }

/-- The sample world with a dump binary that cannot be launched. -/
def launchFailWorld : World :=
  { sampleWorld with
    spawn := .launchFailure "[Errno 2] No such file or directory: 'mariadb-dump'" }

/-- A configuration whose database name coincides with its password. -/
def leakConfig : DBConfig :=
  { sampleConfig with
    db_password := some (.str "s3cret"),
    db_name := some (.str "s3cret") }

/-- A configuration whose `db_name` is a Python list (not a string). -/
def listNameConfig : DBConfig :=
  { sampleConfig with db_name := some (.listS ["appdb"]) }

/-! ## Helper lemmas -/

theorem strData_append (a b : String) : (a ++ b).data = a.data ++ b.data := rfl

theorem splitCommaList_ne_nil (cs : List Char) : splitCommaList cs ≠ [] := by
  match cs with
  | [] => simp [splitCommaList]
  | c :: rest =>
    by_cases h : c = ','
    · simp [splitCommaList, h]
    · simp only [splitCommaList, if_neg h]
      cases hsp : splitCommaList rest <;> simp

theorem splitComma_head (t r : List Char) (h : ',' ∉ t) :
    (splitCommaList (t ++ ',' :: r)).headD [] = t := by
  induction t with
  | nil => simp [splitCommaList]
  | cons c cs ih =>
    have hc : c ≠ ',' := fun hc => h (hc ▸ List.mem_cons_self c cs)
    have hcs : ',' ∉ cs := fun hm => h (List.mem_cons_of_mem c hm)
    have ihh := ih hcs
    simp only [List.cons_append, splitCommaList, if_neg hc]
    cases hsp : splitCommaList (cs ++ ',' :: r) with
    | nil => exact absurd hsp (splitCommaList_ne_nil _)
    | cons hd tl =>
      rw [hsp] at ihh
      simp at ihh
      simp [ihh]

theorem isDigit_digitChar_mod (n : Nat) : (Nat.digitChar (n % 10)).isDigit = true := by
  have hlt : n % 10 < 10 := Nat.mod_lt _ (by omega)
  have h10 : n % 10 = 0 ∨ n % 10 = 1 ∨ n % 10 = 2 ∨ n % 10 = 3 ∨ n % 10 = 4 ∨
      n % 10 = 5 ∨ n % 10 = 6 ∨ n % 10 = 7 ∨ n % 10 = 8 ∨ n % 10 = 9 := by omega
  rcases h10 with h | h | h | h | h | h | h | h | h | h <;> rw [h] <;> decide

theorem pad2L_digits (n : Nat) : (pad2L n).all Char.isDigit = true := by
  simp [pad2L, isDigit_digitChar_mod]

theorem pad4L_digits (n : Nat) : (pad4L n).all Char.isDigit = true := by
  simp [pad4L, isDigit_digitChar_mod]

theorem getLastD_cons_default (c : Char) (cs : List Char) (x d : Char) :
    (c :: cs).getLastD x = (c :: cs).getLastD d := by
  cases cs with
  | nil => rfl
  | cons c2 ct => rw [List.getLastD_cons x c, List.getLastD_cons d c]

theorem getLastD_append_cons (xs : List Char) (c : Char) (cs : List Char) (d : Char) :
    (xs ++ c :: cs).getLastD d = (c :: cs).getLastD d := by
  induction xs generalizing d with
  | nil => rfl
  | cons x xt ih =>
    rw [List.cons_append, List.getLastD_cons, ih x]
    exact getLastD_cons_default c cs x d

theorem backupDir_getLastD (w : World) : w.backupDir.data.getLastD '/' = 's' := by
  show (w.installRoot ++ "/backups").data.getLastD '/' = 's'
  rw [strData_append]
  show (w.installRoot.data ++ '/' :: "backups".data).getLastD '/' = 's'
  rw [getLastD_append_cons]
  rfl


theorem isStr_str (s : String) : (PyVal.str s).isStr = true := rfl

theorem dictGet_dictSet (d : Env) (k : String) (v : PyVal) :
    dictGet (dictSet d k v) k = some v := by
  induction d with
  | nil => simp [dictSet, dictGet]
  | cons p rest ih =>
    by_cases h : p.1 = k
    · simp [dictSet, dictGet, h]
    · simp [dictSet, dictGet, h, ih]

theorem dictSet_all_isStr (d : Env) (k : String) (v : PyVal)
    (hd : (d.all fun q => q.2.isStr) = true) (hv : v.isStr = true) :
    ((dictSet d k v).all fun q => q.2.isStr) = true := by
  induction d with
  | nil => simp [dictSet, hv]
  | cons p rest ih =>
    simp only [List.all_cons, Bool.and_eq_true] at hd
    by_cases h : p.1 = k
    · simp [dictSet, h, hv, hd.2]
    · simp [dictSet, h, hd.1, ih hd.2]

theorem extract_target_str (n : String) :
    ∃ t : String, extract_target (PyVal.str n) = .ok (PyVal.str t) := by
  by_cases h : ',' ∈ n.data
  · obtain ⟨hd, tl, heq⟩ := List.exists_cons_of_ne_nil (splitCommaList_ne_nil n.data)
    refine ⟨pyStrip (String.mk hd), ?_⟩
    simp [extract_target, pyInComma, h, pySplitComma, bind, Except.bind,
      pure, Except.pure, heq]
  · exact ⟨n, by simp [extract_target, pyInComma, h, bind, Except.bind, pure, Except.pure]⟩

theorem join_outPath (w : World) (tgt : String) :
    os_path_join w.backupDir ("backup_mysql_" ++ tgt ++ "_" ++ get_timestamp w.now ++ ".sql") =
      outPath w tgt := by
  have hf : ("backup_mysql_" ++ tgt ++ "_" ++ get_timestamp w.now ++ ".sql").data.headD ' '
      = 'b' := rfl
  have hd := backupDir_getLastD w
  rw [os_path_join, if_neg (by rw [hf]; decide), if_neg (by rw [hd]; decide), outPath]

theorem exists_error_bind {α β : Type} (x : Except PyErr α)
    (f : α → Except PyErr β) (hf : ∀ v, ∃ e, f v = .error e) :
    ∃ e, (x >>= f) = .error e := by
  cases x with
  | error e => exact ⟨e, rfl⟩
  | ok v => simpa [bind, Except.bind] using hf v

theorem exists_error_bind2 {α β : Type} (x : Except PyErr α)
    (f : α → Except PyErr β) (hx : ∃ e, x = .error e) :
    ∃ e, (x >>= f) = .error e := by
  obtain ⟨e, he⟩ := hx
  exact ⟨e, by rw [he]; rfl⟩

theorem backup_good_run (w : World) (cfg : DBConfig) (h p u pw n tgt : String)
    (hh : cfg.db_host = some (.str h)) (hp : cfg.db_port = some (.str p))
    (hu : cfg.db_user = some (.str u)) (hpw : cfg.db_password = some (.str pw))
    (hn : cfg.db_name = some (.str n))
    (htgt : extract_target (PyVal.str n) = .ok (PyVal.str tgt))
    (henv : (w.environ.all fun q => q.2.isStr) = true)
    (hdir : w.dirs.contains w.backupDir = true ∨ w.mkdirOk = true) :
    ∃ w2 : World,
      w2.trace = w.trace ++ [⟨dumpCmd w h p u tgt, dictSet w.environ "MYSQL_PWD" (PyVal.str pw)⟩] ∧
      w2.environ = w.environ ∧
      (∀ err, w.spawn = .exit 0 err →
        MySQLBackup.backup w cfg =
          .ok (w2, (true, some (outPath w tgt), "Backup erfolgreich erstellt."))) ∧
      (∀ c err, w.spawn = .exit c err → c ≠ 0 →
        MySQLBackup.backup w cfg =
          .ok (w2, (false, none, "Fehler beim Erstellen des Backups: " ++ err))) ∧
      (∀ m, w.spawn = .launchFailure m →
        MySQLBackup.backup w cfg = .ok (w2, (false, none, m))) := by
  have henv2 : ((dictSet w.environ "MYSQL_PWD" (PyVal.str pw)).all fun q => q.2.isStr) = true :=
    dictSet_all_isStr _ _ _ henv rfl
  have hens : ∃ w1 : World, ensure_backup_dir w = .ok (w1, w.backupDir) ∧
      w1.installRoot = w.installRoot ∧ w1.environ = w.environ ∧ w1.now = w.now ∧
      w1.spawn = w.spawn ∧ w1.trace = w.trace := by
    by_cases hdc : w.dirs.contains w.backupDir = true
    · exact ⟨w, by rw [ensure_backup_dir, if_pos hdc], rfl, rfl, rfl, rfl, rfl⟩
    · have hmk : w.mkdirOk = true := hdir.resolve_left hdc
      exact ⟨{ w with dirs := w.backupDir :: w.dirs },
        by rw [ensure_backup_dir, if_neg hdc, if_pos hmk], rfl, rfl, rfl, rfl, rfl⟩
  obtain ⟨w1, hens, hroot, henviron, hnow, hspawn, htrace⟩ := hens
  have hbd : w1.backupDir = w.backupDir := by
    rw [World.backupDir, World.backupDir, hroot]
  have hjoin := join_outPath w tgt
  refine ⟨{ w1 with trace := w1.trace ++
      [⟨dumpCmd w h p u tgt, dictSet w.environ "MYSQL_PWD" (PyVal.str pw)⟩] },
    by simp [htrace], by simp [henviron], ?_, ?_, ?_⟩
  · intro err hsp
    simp [MySQLBackup.backup, hens, hh, hp, hu, hpw, hn, htgt, pyGetAttr,
      bind, Except.bind, pure, Except.pure, pyToStr, hbd, hnow, henviron, hspawn, hsp,
      hjoin, subprocess_run, henv2, isStr_str, dumpCmd, outPath]
  · intro c err hsp hc
    simp [MySQLBackup.backup, hens, hh, hp, hu, hpw, hn, htgt, pyGetAttr,
      bind, Except.bind, pure, Except.pure, pyToStr, hbd, hnow, henviron, hspawn, hsp, hc,
      hjoin, subprocess_run, henv2, isStr_str, dumpCmd, outPath]
  · intro m hsp
    simp [MySQLBackup.backup, hens, hh, hp, hu, hpw, hn, htgt, pyGetAttr,
      bind, Except.bind, pure, Except.pure, pyToStr, hbd, hnow, henviron, hspawn, hsp,
      hjoin, subprocess_run, henv2, isStr_str, pyErrStr, dumpCmd, outPath]

/-- A run with a well-typed config always returns a result tuple once it
reaches the subprocess, whatever the dump process does. -/
theorem backup_good_complete (w : World) (cfg : DBConfig) (h p u pw n tgt : String)
    (hh : cfg.db_host = some (.str h)) (hp : cfg.db_port = some (.str p))
    (hu : cfg.db_user = some (.str u)) (hpw : cfg.db_password = some (.str pw))
    (hn : cfg.db_name = some (.str n))
    (htgt : extract_target (PyVal.str n) = .ok (PyVal.str tgt))
    (henv : (w.environ.all fun q => q.2.isStr) = true)
    (hdir : w.dirs.contains w.backupDir = true ∨ w.mkdirOk = true) :
    ∃ w2 res, MySQLBackup.backup w cfg = .ok (w2, res) ∧
      w2.trace = w.trace ++
        [⟨dumpCmd w h p u tgt, dictSet w.environ "MYSQL_PWD" (PyVal.str pw)⟩] ∧
      w2.environ = w.environ := by
  obtain ⟨w2, htr, hen, c1, c2, c3⟩ :=
    backup_good_run w cfg h p u pw n tgt hh hp hu hpw hn htgt henv hdir
  cases hsp : w.spawn with
  | exit c err =>
    by_cases hc : c = 0
    · subst hc
      exact ⟨w2, _, c1 err hsp, htr, hen⟩
    · exact ⟨w2, _, c2 c err hsp hc, htr, hen⟩
  | launchFailure m => exact ⟨w2, _, c3 m hsp, htr, hen⟩

/-- C1: the factory's strategy resolution is a total case split:
`"mysql"` yields the MySQL strategy, `"postgresql"` and `"mongodb"` raise
`NotImplementedError`, and every other identifier raises `ValueError`
(the unknown-engine error), an error distinct from `NotImplementedError`. -/
theorem factory_total_case_split (s : String) :
    (s = "mysql" ∧ get_backup_strategy s = .ok Strategy.mysql) ∨
    ((s = "postgresql" ∨ s = "mongodb") ∧
      ∃ m, get_backup_strategy s = .error (.notImplemented m)) ∨
    (s ≠ "mysql" ∧ s ≠ "postgresql" ∧ s ≠ "mongodb" ∧
      get_backup_strategy s = .error (.valueError ("Unbekannter Datenbank-Typ: " ++ s)) ∧
      ∀ m, get_backup_strategy s ≠ .error (.notImplemented m)) := by
  by_cases h1 : s = "mysql"
  · exact Or.inl ⟨h1, by simp [get_backup_strategy, h1]⟩
  · by_cases h2 : s = "postgresql"
    · exact Or.inr (Or.inl ⟨Or.inl h2, "PostgreSQL Backup noch nicht implementiert.",
        by simp [get_backup_strategy, h1, h2]⟩)
    · by_cases h3 : s = "mongodb"
      · exact Or.inr (Or.inl ⟨Or.inr h3, "MongoDB Backup noch nicht implementiert.",
          by simp [get_backup_strategy, h1, h2, h3]⟩)
      · refine Or.inr (Or.inr ⟨h1, h2, h3, by simp [get_backup_strategy, h1, h2, h3], ?_⟩)
        intro m hm
        simp [get_backup_strategy, h1, h2, h3] at hm

/-- C1 witness: the factory resolves `"mysql"` to the MySQL strategy. -/
theorem factory_total_case_split_witness :
    get_backup_strategy "mysql" = .ok Strategy.mysql := by
  rcases factory_total_case_split "mysql" with ⟨_, hres⟩ | ⟨hc, _⟩ | ⟨hc, _, _⟩
  · exact hres
  · rcases hc with hc | hc <;> simp at hc
  · simp at hc

/-- C4: if `db_name` contains a comma, the extracted target is the
substring before the first comma with surrounding whitespace stripped;
otherwise it is the whole string unchanged; in particular
`"appdb,logsdb"` yields `"appdb"` and `"appdb"` yields `"appdb"`. -/
theorem extract_target_comma_split (t r s : String)
    (ht : ¬ ',' ∈ t.data) (hs : ¬ ',' ∈ s.data) :
    extract_target (PyVal.str (t ++ "," ++ r)) = .ok (PyVal.str (pyStrip t)) ∧
    extract_target (PyVal.str s) = .ok (PyVal.str s) ∧
    extract_target (PyVal.str "appdb,logsdb") = .ok (PyVal.str "appdb") ∧
    extract_target (PyVal.str "appdb") = .ok (PyVal.str "appdb") := by
  refine ⟨?_, ?_, rfl, rfl⟩
  · have hdata : (t ++ "," ++ r).data = t.data ++ ',' :: r.data := by
      simp [strData_append]
    have hd2 : decide (',' ∈ t.data ++ ',' :: r.data) = true := by simp
    have hhead := splitComma_head t.data r.data ht
    have hmap : ∀ l : List (List Char),
        (l.map fun cs => String.mk cs).headD "" = String.mk (l.headD []) := by
      intro l
      cases l <;> rfl
    simp only [extract_target, pyInComma, bind, Except.bind,
      pySplitComma, pure, Except.pure, hdata]
    rw [if_pos hd2, hmap, hhead]
  · simp [extract_target, pyInComma, hs, bind, Except.bind, pure, Except.pure]

/-- C4 witness: evaluated at `" app,logs"` (target `"app"` after strip)
and `"plain"` (unchanged). -/
theorem extract_target_comma_split_witness :
    extract_target (PyVal.str (" app" ++ "," ++ "logs")) = .ok (PyVal.str (pyStrip " app")) ∧
    extract_target (PyVal.str "plain") = .ok (PyVal.str "plain") ∧
    extract_target (PyVal.str "appdb,logsdb") = .ok (PyVal.str "appdb") ∧
    extract_target (PyVal.str "appdb") = .ok (PyVal.str "appdb") :=
  extract_target_comma_split " app" "logs" "plain" (by decide) (by decide)

/-- C8: whenever the filesystem allows it (directory pre-existing or
creation permitted), `ensure_backup_dir` succeeds, a second call succeeds
with the same path and the identical filesystem state, and after the
first call the directory exists. -/
theorem ensure_backup_dir_idempotent (w : World)
    (hdir : w.dirs.contains w.backupDir = true ∨ w.mkdirOk = true) :
    ∃ w1 : World, ensure_backup_dir w = .ok (w1, w.backupDir) ∧
      ensure_backup_dir w1 = .ok (w1, w.backupDir) ∧
      w1.dirs.contains w1.backupDir = true := by
  by_cases hdc : w.dirs.contains w.backupDir = true
  · exact ⟨w, by rw [ensure_backup_dir, if_pos hdc],
      by rw [ensure_backup_dir, if_pos hdc], hdc⟩
  · have hmk : w.mkdirOk = true := hdir.resolve_left hdc
    refine ⟨{ w with dirs := w.backupDir :: w.dirs }, ?_, ?_, ?_⟩
    · rw [ensure_backup_dir, if_neg hdc, if_pos hmk]
    · have hc2 : ({ w with dirs := w.backupDir :: w.dirs } : World).dirs.contains
          ({ w with dirs := w.backupDir :: w.dirs } : World).backupDir = true := by
        simp [World.backupDir, List.contains_cons]
      rw [ensure_backup_dir, if_pos hc2]
      rfl
    · simp [World.backupDir, List.contains_cons]


theorem get_timestamp_shape (dt : DateTime) :
    ∃ d1 d2 : List Char, (get_timestamp dt).data = d1 ++ '_' :: d2 ∧
      d1.length = 8 ∧ d1.all Char.isDigit = true ∧
      d2.length = 6 ∧ d2.all Char.isDigit = true := by
  refine ⟨pad4L dt.year ++ pad2L dt.month ++ pad2L dt.day,
          pad2L dt.hour ++ pad2L dt.minute ++ pad2L dt.second, ?_, ?_, ?_, ?_, ?_⟩
  · show pad4L dt.year ++ pad2L dt.month ++ pad2L dt.day ++ ['_'] ++
      pad2L dt.hour ++ pad2L dt.minute ++ pad2L dt.second = _
    simp [List.append_assoc]
  · simp [pad4L, pad2L]
  · simp [List.all_append, pad4L_digits, pad2L_digits]
  · simp [pad2L]
  · simp [List.all_append, pad2L_digits]

/-- C2 (amended): on a non-zero dump exit code, `backup` returns the
failure tuple `(False, None, "Fehler beim Erstellen des Backups: " ++
stderr)`; when the subprocess cannot be launched it returns
`(False, None, exceptionMessage)`; in both cases a result is returned,
no exception is raised. -/
theorem backup_failure_results (w : World) (cfg : DBConfig) (h p u pw n : String)
    (hh : cfg.db_host = some (.str h)) (hp : cfg.db_port = some (.str p))
    (hu : cfg.db_user = some (.str u)) (hpw : cfg.db_password = some (.str pw))
    (hn : cfg.db_name = some (.str n))
    (henv : (w.environ.all fun q => q.2.isStr) = true)
    (hdir : w.dirs.contains w.backupDir = true ∨ w.mkdirOk = true) :
    (∀ c err, w.spawn = .exit c err → c ≠ 0 →
      ∃ w2, MySQLBackup.backup w cfg =
        .ok (w2, (false, none, "Fehler beim Erstellen des Backups: " ++ err))) ∧
    (∀ m, w.spawn = .launchFailure m →
      ∃ w2, MySQLBackup.backup w cfg = .ok (w2, (false, none, m))) := by
  obtain ⟨tgt, htgt⟩ := extract_target_str n
  obtain ⟨w2, _, _, _, c2, c3⟩ :=
    backup_good_run w cfg h p u pw n tgt hh hp hu hpw hn htgt henv hdir
  exact ⟨fun c err hsp hc => ⟨w2, c2 c err hsp hc⟩, fun m hsp => ⟨w2, c3 m hsp⟩⟩

/-- C2 witness: a dump exiting 1 with stderr `"Access denied"` and a
dump that cannot be launched both yield failure tuples. -/
theorem backup_failure_results_witness :
    (∃ w2, MySQLBackup.backup deniedWorld sampleConfig =
      .ok (w2, (false, none, "Fehler beim Erstellen des Backups: " ++ "Access denied"))) ∧
    (∃ w2, MySQLBackup.backup launchFailWorld sampleConfig =
      .ok (w2, (false, none, "[Errno 2] No such file or directory: 'mariadb-dump'"))) :=
  ⟨(backup_failure_results deniedWorld sampleConfig "localhost" "3306" "root" "s3cret"
      "appdb,logsdb" rfl rfl rfl rfl rfl rfl (Or.inl rfl)).1 1 "Access denied" rfl (by decide),
   (backup_failure_results launchFailWorld sampleConfig "localhost" "3306" "root" "s3cret"
      "appdb,logsdb" rfl rfl rfl rfl rfl rfl (Or.inl rfl)).2
      "[Errno 2] No such file or directory: 'mariadb-dump'" rfl⟩

/-- C2 counterexample: the claim's quoted message prefix is wrong — the
code produces the German `"Fehler beim Erstellen des Backups: "`, not
`"Error creating backup: "`. -/
theorem backup_error_message_cex :
    backupOutcome deniedWorld sampleConfig =
      some (false, none, "Fehler beim Erstellen des Backups: Access denied") ∧
    "Fehler beim Erstellen des Backups: Access denied" ≠
      "Error creating backup: " ++ "Access denied" :=
  ⟨rfl, by decide⟩

/-- C3 (amended): on dump exit code 0 (whatever its stderr and whatever
the filesystem contains), `backup` returns a success tuple with the
constructed file path and the message `"Backup erfolgreich erstellt."`. -/
theorem backup_success_result (w : World) (cfg : DBConfig) (h p u pw n err : String)
    (hh : cfg.db_host = some (.str h)) (hp : cfg.db_port = some (.str p))
    (hu : cfg.db_user = some (.str u)) (hpw : cfg.db_password = some (.str pw))
    (hn : cfg.db_name = some (.str n))
    (henv : (w.environ.all fun q => q.2.isStr) = true)
    (hdir : w.dirs.contains w.backupDir = true ∨ w.mkdirOk = true)
    (hsp : w.spawn = .exit 0 err) :
    ∃ w2 tgt, extract_target (PyVal.str n) = .ok (PyVal.str tgt) ∧
      MySQLBackup.backup w cfg =
        .ok (w2, (true, some (outPath w tgt), "Backup erfolgreich erstellt.")) := by
  obtain ⟨tgt, htgt⟩ := extract_target_str n
  obtain ⟨w2, _, _, c1, _, _⟩ :=
    backup_good_run w cfg h p u pw n tgt hh hp hu hpw hn htgt henv hdir
  exact ⟨w2, tgt, htgt, c1 err hsp⟩

/-- C3 witness: the sample run succeeds with the expected path and
message. -/
theorem backup_success_result_witness :
    ∃ w2 tgt, extract_target (PyVal.str "appdb,logsdb") = .ok (PyVal.str tgt) ∧
      MySQLBackup.backup sampleWorld sampleConfig =
        .ok (w2, (true, some (outPath sampleWorld tgt), "Backup erfolgreich erstellt.")) :=
  backup_success_result sampleWorld sampleConfig "localhost" "3306" "root" "s3cret"
    "appdb,logsdb" "" rfl rfl rfl rfl rfl rfl (Or.inl rfl) rfl

/-- C3 counterexample: the claim's quoted success message is wrong — the
code returns the German `"Backup erfolgreich erstellt."`, not
`"Backup created successfully."`. -/
theorem backup_success_message_cex :
    backupOutcome sampleWorld sampleConfig =
      some (true, some "/app/backups/backup_mysql_appdb_20261012_030405.sql",
        "Backup erfolgreich erstellt.") ∧
    "Backup erfolgreich erstellt." ≠ "Backup created successfully." :=
  ⟨rfl, by decide⟩

/-- C5 counterexample: when the config's database name coincides with its
password, the password is an element of the constructed argument list,
so "the password is never an element of the argument list" fails. -/
theorem password_in_cmd_cex :
    leakConfig.db_password = some (PyVal.str "s3cret") ∧
    (firstSpawn sampleWorld leakConfig).map
      (fun ev => decide (PyVal.str "s3cret" ∈ ev.cmd)) = some true :=
  ⟨rfl, rfl⟩

/-- C5 (amended): the constructed argument list does not depend on the
password — two configs identical except for the password produce the same
argument list — and the password reaches the subprocess only through the
`MYSQL_PWD` entry of the environment. -/
theorem cmd_password_independent (w : World) (cfg : DBConfig) (h p u n pw1 pw2 : String)
    (hh : cfg.db_host = some (.str h)) (hp : cfg.db_port = some (.str p))
    (hu : cfg.db_user = some (.str u)) (hn : cfg.db_name = some (.str n))
    (henv : (w.environ.all fun q => q.2.isStr) = true)
    (hdir : w.dirs.contains w.backupDir = true ∨ w.mkdirOk = true) :
    ∃ w1 r1 w2 r2 ev1 ev2,
      MySQLBackup.backup w { cfg with db_password := some (.str pw1) } = .ok (w1, r1) ∧
      w1.trace = w.trace ++ [ev1] ∧
      MySQLBackup.backup w { cfg with db_password := some (.str pw2) } = .ok (w2, r2) ∧
      w2.trace = w.trace ++ [ev2] ∧
      ev1.cmd = ev2.cmd ∧
      dictGet ev1.env "MYSQL_PWD" = some (.str pw1) ∧
      dictGet ev2.env "MYSQL_PWD" = some (.str pw2) := by
  obtain ⟨tgt, htgt⟩ := extract_target_str n
  obtain ⟨w1, r1, hb1, ht1, _⟩ :=
    backup_good_complete w { cfg with db_password := some (.str pw1) } h p u pw1 n tgt
      hh hp hu rfl hn htgt henv hdir
  obtain ⟨w2, r2, hb2, ht2, _⟩ :=
    backup_good_complete w { cfg with db_password := some (.str pw2) } h p u pw2 n tgt
      hh hp hu rfl hn htgt henv hdir
  exact ⟨w1, r1, w2, r2, _, _, hb1, ht1, hb2, ht2, rfl,
    dictGet_dictSet w.environ "MYSQL_PWD" (PyVal.str pw1),
    dictGet_dictSet w.environ "MYSQL_PWD" (PyVal.str pw2)⟩

/-- C5 witness: the independence theorem applied to the sample config
with passwords `"pwA"` and `"pwB"`. -/
theorem cmd_password_independent_witness :
    ∃ w1 r1 w2 r2 ev1 ev2,
      MySQLBackup.backup sampleWorld
        { sampleConfig with db_password := some (.str "pwA") } = .ok (w1, r1) ∧
      w1.trace = sampleWorld.trace ++ [ev1] ∧
      MySQLBackup.backup sampleWorld
        { sampleConfig with db_password := some (.str "pwB") } = .ok (w2, r2) ∧
      w2.trace = sampleWorld.trace ++ [ev2] ∧
      ev1.cmd = ev2.cmd ∧
      dictGet ev1.env "MYSQL_PWD" = some (.str "pwA") ∧
      dictGet ev2.env "MYSQL_PWD" = some (.str "pwB") :=
  cmd_password_independent sampleWorld sampleConfig "localhost" "3306" "root"
    "appdb,logsdb" "pwA" "pwB" rfl rfl rfl rfl rfl (Or.inl rfl)

/-- C7: the constructed command invokes `mariadb-dump` with `-h<host>`,
`-P<port>`, `-u<user>`, `--result-file=<outputPath>`,
`--single-transaction` and the target database as positional argument;
the password is not among the arguments' sources but is placed in the
`MYSQL_PWD` entry of the subprocess environment. -/
theorem backup_cmd_contract (w : World) (cfg : DBConfig) (h p u pw n : String)
    (hh : cfg.db_host = some (.str h)) (hp : cfg.db_port = some (.str p))
    (hu : cfg.db_user = some (.str u)) (hpw : cfg.db_password = some (.str pw))
    (hn : cfg.db_name = some (.str n))
    (henv : (w.environ.all fun q => q.2.isStr) = true)
    (hdir : w.dirs.contains w.backupDir = true ∨ w.mkdirOk = true) :
    ∃ w2 res tgt, extract_target (PyVal.str n) = .ok (PyVal.str tgt) ∧
      MySQLBackup.backup w cfg = .ok (w2, res) ∧
      w2.trace = w.trace ++
        [⟨[PyVal.str "mariadb-dump", PyVal.str ("-h" ++ h), PyVal.str ("-P" ++ p),
           PyVal.str ("-u" ++ u), PyVal.str ("--result-file=" ++ outPath w tgt),
           PyVal.str "--single-transaction", PyVal.str tgt],
          dictSet w.environ "MYSQL_PWD" (PyVal.str pw)⟩] ∧
      dictGet (dictSet w.environ "MYSQL_PWD" (PyVal.str pw)) "MYSQL_PWD" =
        some (PyVal.str pw) := by
  obtain ⟨tgt, htgt⟩ := extract_target_str n
  obtain ⟨w2, res, hb, ht, _⟩ :=
    backup_good_complete w cfg h p u pw n tgt hh hp hu hpw hn htgt henv hdir
  exact ⟨w2, res, tgt, htgt, hb, ht, dictGet_dictSet w.environ "MYSQL_PWD" (PyVal.str pw)⟩

/-- C7 witness: the command contract evaluated on the sample run. -/
theorem backup_cmd_contract_witness :
    ∃ w2 res tgt, extract_target (PyVal.str "appdb,logsdb") = .ok (PyVal.str tgt) ∧
      MySQLBackup.backup sampleWorld sampleConfig = .ok (w2, res) ∧
      w2.trace = sampleWorld.trace ++
        [⟨[PyVal.str "mariadb-dump", PyVal.str ("-h" ++ "localhost"),
           PyVal.str ("-P" ++ "3306"), PyVal.str ("-u" ++ "root"),
           PyVal.str ("--result-file=" ++ outPath sampleWorld tgt),
           PyVal.str "--single-transaction", PyVal.str tgt],
          dictSet sampleWorld.environ "MYSQL_PWD" (PyVal.str "s3cret")⟩] ∧
      dictGet (dictSet sampleWorld.environ "MYSQL_PWD" (PyVal.str "s3cret")) "MYSQL_PWD" =
        some (PyVal.str "s3cret") :=
  backup_cmd_contract sampleWorld sampleConfig "localhost" "3306" "root" "s3cret"
    "appdb,logsdb" rfl rfl rfl rfl rfl rfl (Or.inl rfl)

/-- C10: the environment handed to the subprocess is the parent
environment copy with `MYSQL_PWD` set to the config password, and the
parent environment of the resulting world is unchanged by the call. -/
theorem backup_env_frame (w : World) (cfg : DBConfig) (h p u pw n : String)
    (hh : cfg.db_host = some (.str h)) (hp : cfg.db_port = some (.str p))
    (hu : cfg.db_user = some (.str u)) (hpw : cfg.db_password = some (.str pw))
    (hn : cfg.db_name = some (.str n))
    (henv : (w.environ.all fun q => q.2.isStr) = true)
    (hdir : w.dirs.contains w.backupDir = true ∨ w.mkdirOk = true) :
    ∃ w2 res ev, MySQLBackup.backup w cfg = .ok (w2, res) ∧
      w2.trace = w.trace ++ [ev] ∧
      ev.env = dictSet w.environ "MYSQL_PWD" (PyVal.str pw) ∧
      w2.environ = w.environ := by
  obtain ⟨tgt, htgt⟩ := extract_target_str n
  obtain ⟨w2, res, hb, ht, he⟩ :=
    backup_good_complete w cfg h p u pw n tgt hh hp hu hpw hn htgt henv hdir
  exact ⟨w2, res, _, hb, ht, rfl, he⟩

/-- C10 witness: the environment frame property on the sample run. -/
theorem backup_env_frame_witness :
    ∃ w2 res ev, MySQLBackup.backup sampleWorld sampleConfig = .ok (w2, res) ∧
      w2.trace = sampleWorld.trace ++ [ev] ∧
      ev.env = dictSet sampleWorld.environ "MYSQL_PWD" (PyVal.str "s3cret") ∧
      w2.environ = sampleWorld.environ :=
  backup_env_frame sampleWorld sampleConfig "localhost" "3306" "root" "s3cret"
    "appdb,logsdb" rfl rfl rfl rfl rfl rfl (Or.inl rfl)

/-- C6: a successful backup's file path is the backup directory joined
with `backup_mysql_<target>_<timestamp>.sql`, where the timestamp of the
local-time clock reading consists of 8 digits, one underscore, and 6
digits (14 digits total). -/
theorem backup_filepath_format (w : World) (cfg : DBConfig) (h p u pw n err : String)
    (hh : cfg.db_host = some (.str h)) (hp : cfg.db_port = some (.str p))
    (hu : cfg.db_user = some (.str u)) (hpw : cfg.db_password = some (.str pw))
    (hn : cfg.db_name = some (.str n))
    (henv : (w.environ.all fun q => q.2.isStr) = true)
    (hdir : w.dirs.contains w.backupDir = true ∨ w.mkdirOk = true)
    (hval : w.now.valid) (hsp : w.spawn = .exit 0 err) :
    ∃ w2 tgt, extract_target (PyVal.str n) = .ok (PyVal.str tgt) ∧
      MySQLBackup.backup w cfg = .ok (w2, (true,
        some (w.backupDir ++ "/" ++
          ("backup_mysql_" ++ tgt ++ "_" ++ get_timestamp w.now ++ ".sql")),
        "Backup erfolgreich erstellt.")) ∧
      ∃ d1 d2 : List Char, (get_timestamp w.now).data = d1 ++ '_' :: d2 ∧
        d1.length = 8 ∧ d1.all Char.isDigit = true ∧
        d2.length = 6 ∧ d2.all Char.isDigit = true := by
  obtain ⟨tgt, htgt⟩ := extract_target_str n
  obtain ⟨w2, _, _, c1, _, _⟩ :=
    backup_good_run w cfg h p u pw n tgt hh hp hu hpw hn htgt henv hdir
  exact ⟨w2, tgt, htgt, c1 err hsp, get_timestamp_shape w.now⟩

/-- C6 witness: the path format on the sample run (clock reading
2026-10-12 03:04:05). -/
theorem backup_filepath_format_witness :
    ∃ w2 tgt, extract_target (PyVal.str "appdb,logsdb") = .ok (PyVal.str tgt) ∧
      MySQLBackup.backup sampleWorld sampleConfig = .ok (w2, (true,
        some (sampleWorld.backupDir ++ "/" ++
          ("backup_mysql_" ++ tgt ++ "_" ++ get_timestamp sampleWorld.now ++ ".sql")),
        "Backup erfolgreich erstellt.")) ∧
      ∃ d1 d2 : List Char, (get_timestamp sampleWorld.now).data = d1 ++ '_' :: d2 ∧
        d1.length = 8 ∧ d1.all Char.isDigit = true ∧
        d2.length = 6 ∧ d2.all Char.isDigit = true :=
  backup_filepath_format sampleWorld sampleConfig "localhost" "3306" "root" "s3cret"
    "appdb,logsdb" "" rfl rfl rfl rfl rfl rfl (Or.inl rfl)
    (by unfold DateTime.valid; decide) rfl

/-- C9 counterexample: a `db_name` that is a Python list without a comma
element passes the comma test, flows into `subprocess.run`, and the
`TypeError` raised there is caught and returned as a `(False, None,
message)` result — it does not propagate as a raised exception. -/
theorem nonstring_dbname_result_cex :
    listNameConfig.db_name = some (PyVal.listS ["appdb"]) ∧
    backupOutcome sampleWorld listNameConfig =
      some (false, none, "expected str, bytes or os.PathLike object, not list") :=
  ⟨rfl, rfl⟩

/-- C9 (amended): errors raised before the subprocess call — a missing
`db_host`/`db_port`/`db_user`/`db_password`/`db_name` attribute, a
`db_name` on which the comma test itself raises (an `int`), a non-string
`db_name` containing a comma (whose `.split` is missing), or a denied
directory creation — propagate out of `backup` as raised exceptions
rather than being converted into a result tuple. -/
theorem backup_early_error_propagation (w : World) (cfg : DBConfig) :
    (cfg.db_host = none → ∃ e, MySQLBackup.backup w cfg = .error e) ∧
    (cfg.db_port = none → ∃ e, MySQLBackup.backup w cfg = .error e) ∧
    (cfg.db_user = none → ∃ e, MySQLBackup.backup w cfg = .error e) ∧
    (cfg.db_password = none → ∃ e, MySQLBackup.backup w cfg = .error e) ∧
    (cfg.db_name = none → ∃ e, MySQLBackup.backup w cfg = .error e) ∧
    (∀ k : Int, cfg.db_name = some (.int k) → ∃ e, MySQLBackup.backup w cfg = .error e) ∧
    (∀ xs, cfg.db_name = some (.listS xs) → "," ∈ xs →
      ∃ e, MySQLBackup.backup w cfg = .error e) ∧
    (w.dirs.contains w.backupDir = false → w.mkdirOk = false →
      ∃ e, MySQLBackup.backup w cfg = .error e) := by
  obtain ⟨oh, op, ou, opw, od⟩ := cfg
  refine ⟨?_, ?_, ?_, ?_, ?_, ?_, ?_, ?_⟩
  · intro hyp
    subst hyp
    refine exists_error_bind _ _ ?_
    rintro ⟨w1, pth⟩
    simp [pyGetAttr, bind, Except.bind, pure, Except.pure]
  · intro hyp
    subst hyp
    refine exists_error_bind _ _ ?_
    rintro ⟨w1, pth⟩
    cases oh <;> simp [pyGetAttr, bind, Except.bind, pure, Except.pure]
  · intro hyp
    subst hyp
    refine exists_error_bind _ _ ?_
    rintro ⟨w1, pth⟩
    cases oh <;> cases op <;> simp [pyGetAttr, bind, Except.bind, pure, Except.pure]
  · intro hyp
    subst hyp
    refine exists_error_bind _ _ ?_
    rintro ⟨w1, pth⟩
    cases oh <;> cases op <;> cases ou <;>
      simp [pyGetAttr, bind, Except.bind, pure, Except.pure]
  · intro hyp
    subst hyp
    refine exists_error_bind _ _ ?_
    rintro ⟨w1, pth⟩
    cases oh <;> cases op <;> cases ou <;> cases opw <;>
      simp [pyGetAttr, bind, Except.bind, pure, Except.pure]
  · intro k hyp
    subst hyp
    refine exists_error_bind _ _ ?_
    rintro ⟨w1, pth⟩
    cases oh <;> cases op <;> cases ou <;> cases opw <;>
      simp [pyGetAttr, extract_target, pyInComma, bind, Except.bind, pure, Except.pure]
  · intro xs hyp hmem
    subst hyp
    refine exists_error_bind _ _ ?_
    rintro ⟨w1, pth⟩
    cases oh <;> cases op <;> cases ou <;> cases opw <;>
      simp [pyGetAttr, extract_target, pyInComma, pySplitComma, hmem,
        bind, Except.bind, pure, Except.pure]
  · intro hdc hmk
    have hd2 : ¬ w.backupDir ∈ w.dirs := by simpa using hdc
    refine exists_error_bind2 _ _ ?_
    simp [ensure_backup_dir, hd2, hmk]

/-- C9 witness: a config missing `db_host` makes `backup` raise, and a
world denying directory creation makes `backup` raise. -/
theorem backup_early_error_propagation_witness :
    (∃ e, MySQLBackup.backup sampleWorld
      { sampleConfig with db_host := none } = .error e) ∧
    (∃ e, MySQLBackup.backup
      { sampleWorld with dirs := [], mkdirOk := false } sampleConfig = .error e) :=
  ⟨(backup_early_error_propagation sampleWorld
      { sampleConfig with db_host := none }).1 rfl,
   (backup_early_error_propagation
      { sampleWorld with dirs := [], mkdirOk := false } sampleConfig).2.2.2.2.2.2.2 rfl rfl⟩

/-- C8 witness: idempotence evaluated from a world in which the backup
directory does not yet exist but may be created. -/
theorem ensure_backup_dir_idempotent_witness :
    ∃ w1 : World,
      ensure_backup_dir { sampleWorld with dirs := [] } =
        .ok (w1, ({ sampleWorld with dirs := [] } : World).backupDir) ∧
      ensure_backup_dir w1 = .ok (w1, ({ sampleWorld with dirs := [] } : World).backupDir) ∧
      w1.dirs.contains w1.backupDir = true :=
  ensure_backup_dir_idempotent { sampleWorld with dirs := [] } (Or.inr rfl)
